import Mathlib

/-!
Verification of the paceutils core layer (Helpers query executors, period
utilities, and the time-series loopers in helpers.py and team.py).

The Python code manipulates calendar dates through datetime, calendar.monthrange,
dateutil.relativedelta and the pandas offsets MonthBegin / MonthEnd together with
pandas date_range over the MS and QS frequencies.  The embedding below models a
calendar date as a record of year, month and day, and translates each of those
date operations faithfully.  Database interaction is modelled by passing the
fetched result (or the raised error) as an explicit argument.
-/

namespace PaceUtils

/-- Translation of Python calendar.isleap: year divisible by 4 and either not by
100 or by 400.  Int.emod agrees with the Python modulo on negative years. -/
def isleap (y : Int) : Bool :=
  y % 4 == 0 && (y % 100 != 0 || y % 400 == 0)

/-- Translation of calendar.monthrange restricted to its second component: the
number of days of month m of year y.  The source only evaluates it on months
1..12. -/
def monthrange (y : Int) (m : Nat) : Nat :=
  if m = 2 then (if isleap y then 29 else 28)
  else if m = 4 ∨ m = 6 ∨ m = 9 ∨ m = 11 then 30
  else 31

/-- A calendar date, as produced by datetime.date / pandas Timestamp at day
granularity. -/
structure Date where
  year : Int
  month : Nat
  day : Nat
deriving DecidableEq, Repr

/-- A date is valid when its month is 1..12 and its day fits in the month. -/
def validDate (d : Date) : Prop :=
  1 ≤ d.month ∧ d.month ≤ 12 ∧ 1 ≤ d.day ∧ d.day ≤ monthrange d.year d.month

instance (d : Date) : Decidable (validDate d) := by
  unfold validDate; exact inferInstance

/-- Number of months from month 1 of year 0 to the month of d (the month
counter underlying all month arithmetic of relativedelta and the pandas
offsets). -/
def monthIndex (d : Date) : Int :=
  d.year * 12 + ((d.month : Int) - 1)

/-- First day of the month with the given month counter. -/
def monthStartOfIndex (i : Int) : Date :=
  ⟨i / 12, (i % 12).toNat + 1, 1⟩

/-- Last day of the month with the given month counter. -/
def lastDayOfMonthIndex (i : Int) : Date :=
  let y := i / 12
  let m := (i % 12).toNat + 1
  ⟨y, m, monthrange y m⟩

/-- Calendar order on dates, expressed through the month counter; on valid
dates this is exactly the chronological order of datetime. -/
def dateLe (d e : Date) : Prop :=
  monthIndex d < monthIndex e ∨ (monthIndex d = monthIndex e ∧ d.day ≤ e.day)

instance (d e : Date) : Decidable (dateLe d e) := by
  unfold dateLe; exact inferInstance

/-- Translation of subtracting datetime.timedelta(days=1) from a valid date. -/
def predDay (d : Date) : Date :=
  if 1 < d.day then ⟨d.year, d.month, d.day - 1⟩
  else lastDayOfMonthIndex (monthIndex d - 1)

/-- Translation of subtracting dateutil relativedelta(months=n): move the month
counter back by n and clamp the day to the length of the target month. -/
def subMonths (d : Date) (n : Nat) : Date :=
  let i := monthIndex d - n
  let y := i / 12
  let m := (i % 12).toNat + 1
  ⟨y, m, min d.day (monthrange y m)⟩

/-- Translation of subtracting pandas DateOffset(years=n): keep month and day,
clamping the day (Feb 29 maps to Feb 28 on a non-leap target year). -/
def subYears (d : Date) (n : Nat) : Date :=
  let y := d.year - n
  ⟨y, d.month, min d.day (monthrange y d.month)⟩

/-- Translation of subtracting pandas offsets.MonthBegin(1): a date on a month
start moves to the previous month start, any other date rolls back to the
start of its own month. -/
def monthBeginSub (d : Date) : Date :=
  if d.day = 1 then monthStartOfIndex (monthIndex d - 1)
  else monthStartOfIndex (monthIndex d)

/-- Translation of subtracting pandas offsets.MonthEnd(1): every date moves to
the last day of the previous month (a date on its month end moves to the
previous month end, any other date rolls back past the start of its month). -/
def monthEndSub (d : Date) : Date :=
  lastDayOfMonthIndex (monthIndex d - 1)

/-- Translation of adding pandas offsets.MonthEnd(n) for n at least 1: from a
date on a month end move n month ends forward, from any other date the first
step rolls forward to the end of the current month. -/
def monthEndAdd (d : Date) (n : Nat) : Date :=
  if d.day = monthrange d.year d.month then lastDayOfMonthIndex (monthIndex d + n)
  else lastDayOfMonthIndex (monthIndex d + n - 1)

/-- Two-digit zero padding, as used by strftime for months and days. -/
def pad2 (n : Nat) : String :=
  if n < 10 then "0" ++ toString n else toString n

/-- Four-digit zero padding, as used by strftime for the year. -/
def pad4 (y : Int) : String :=
  if y < 0 then toString y
  else if y < 10 then "000" ++ toString y
  else if y < 100 then "00" ++ toString y
  else if y < 1000 then "0" ++ toString y
  else toString y

/-- Translation of strftime with format %Y-%m-%d. -/
def dateStr (d : Date) : String :=
  pad4 d.year ++ "-" ++ pad2 d.month ++ "-" ++ pad2 d.day

/-- Split a character list at every dash, keeping empty pieces. -/
def splitDashAux : List Char → List Char → List (List Char)
  | [], acc => [acc.reverse]
  | c :: cs, acc =>
    if c = '-' then acc.reverse :: splitDashAux cs []
    else splitDashAux cs (c :: acc)

/-- Read a decimal digit sequence as a number, failing on a non-digit. -/
def digitsToNatAux : List Char → Nat → Option Nat
  | [], acc => some acc
  | c :: cs, acc =>
    if c.isDigit then digitsToNatAux cs (acc * 10 + (c.toNat - 48))
    else none

/-- Read a nonempty decimal digit sequence as a number. -/
def digitsToNat : List Char → Option Nat
  | [] => none
  | cs => digitsToNatAux cs 0

/-- Translation of datetime.strptime with format %Y-%m-%d (also the parsing
performed by pandas to_datetime / date_range on such strings): three dash
separated decimal fields forming a valid calendar date. -/
def parseDate (s : String) : Option Date :=
  match splitDashAux s.data [] with
  | [ys, ms, ds] =>
    match digitsToNat ys, digitsToNat ms, digitsToNat ds with
    | some y, some m, some d =>
      if 1 ≤ m ∧ m ≤ 12 ∧ 1 ≤ d ∧ d ≤ monthrange (y : Int) m then
        some ⟨(y : Int), m, d⟩
      else none
    | _, _, _ => none
  | _ => none

theorem monthrange_ge (y : Int) (m : Nat) : 28 ≤ monthrange y m := by
  unfold monthrange; split_ifs <;> omega

theorem monthIndex_monthStartOfIndex (i : Int) :
    monthIndex (monthStartOfIndex i) = i := by
  unfold monthStartOfIndex monthIndex
  dsimp only
  omega

theorem monthStartOfIndex_day (i : Int) : (monthStartOfIndex i).day = 1 := rfl

theorem monthIndex_lastDayOfMonthIndex (i : Int) :
    monthIndex (lastDayOfMonthIndex i) = i := by
  unfold lastDayOfMonthIndex monthIndex
  dsimp only
  omega

theorem validDate_monthStartOfIndex (i : Int) : validDate (monthStartOfIndex i) := by
  unfold monthStartOfIndex validDate
  dsimp only
  refine ⟨by omega, by omega, by omega, ?_⟩
  exact le_trans (by omega) (monthrange_ge _ _)

theorem validDate_lastDayOfMonthIndex (i : Int) : validDate (lastDayOfMonthIndex i) := by
  unfold lastDayOfMonthIndex validDate
  dsimp only
  refine ⟨by omega, by omega, ?_, le_refl _⟩
  exact le_trans (by omega) (monthrange_ge _ _)

theorem monthIndex_subMonths (d : Date) (n : Nat) :
    monthIndex (subMonths d n) = monthIndex d - n := by
  unfold subMonths
  unfold monthIndex
  dsimp only
  omega

theorem subMonths_day (d : Date) (n : Nat) :
    (subMonths d n).day =
      min d.day (monthrange (subMonths d n).year (subMonths d n).month) := rfl

/-- A value in a fetched sqlite row: NULL, an integer, or a text value. -/
inductive SQLVal where
  | null
  | intVal (n : Int)
  | textVal (s : String)
deriving DecidableEq, Repr

/-- Errors a call can raise: ValueError from date parsing, a query or
connectivity error raised while executing SQL, IndexError from indexing an
empty tuple, and opaque errors raised by a caller supplied indicator
function. -/
inductive PyErr where
  | valueError
  | queryError
  | indexError
  | userError (n : Nat)
deriving DecidableEq, Repr

/-- Translation of the result shaping of Helpers.single_value_query
(helpers.py lines 38-44), applied to the row returned by fetchone: if the
fetch produced no row the function returns 0; otherwise, if the first column
of the row is NULL it returns 0; otherwise it returns the first column.
Indexing an empty row raises IndexError, as val[0] would in Python. -/
def single_value_query (fetched : Option (List SQLVal)) : Except PyErr SQLVal :=
  match fetched with
  | none => .ok (.intVal 0)
  | some row =>
    match row.head? with
    | none => .error .indexError
    | some SQLVal.null => .ok (.intVal 0)
    | some v => .ok v

/-- Translation of the connection lifecycle of Helpers.single_value_query
(helpers.py lines 36-44): connect, execute and fetch (which may raise), then
close, then shape the result.  The fetch outcome is passed in explicitly; the
Bool records whether conn.close() was reached.  When execution raises, the
return statement and the close call are both skipped, so the flag is false. -/
def single_value_query_traced (fetch : Except PyErr (Option (List SQLVal))) :
    Bool × Except PyErr SQLVal :=
  match fetch with
  | .error e => (false, .error e)
  | .ok row => (true, single_value_query row)

/-- Translation of Helpers.fetchall_query (helpers.py lines 58-64): the rows
from fetchall are returned verbatim; the Bool records whether conn.close()
was reached. -/
def fetchall_query_traced (fetch : Except PyErr (List (List SQLVal))) :
    Bool × Except PyErr (List (List SQLVal)) :=
  match fetch with
  | .error e => (false, .error e)
  | .ok rows => (true, .ok rows)

/-- A pandas DataFrame at the granularity the claims need: named columns of
sqlite values. -/
def DataFrame : Type := List (String × List SQLVal)

/-- Translation of Helpers.dataframe_query (helpers.py lines 78-81): the frame
built by pd.read_sql is returned verbatim; the Bool records whether
conn.close() was reached. -/
def dataframe_query_traced (fetch : Except PyErr DataFrame) :
    Bool × Except PyErr DataFrame :=
  match fetch with
  | .error e => (false, .error e)
  | .ok df => (true, .ok df)

/-- Translation of Helpers.month_to_date (helpers.py lines 191-202), with the
current datetime passed explicitly: start of the current month and today. -/
def month_to_date (now : Date) : Date × Date :=
  (⟨now.year, now.month, 1⟩, now)

/-- Translation of Helpers.last_month (helpers.py lines 204-215): one month
before the start of the current month, through the day before the start of
the current month. -/
def last_month (now : Date) : Date × Date :=
  let today : Date := ⟨now.year, now.month, 1⟩
  (subMonths today 1, predDay today)

/-- Translation of Helpers.last_three_months (helpers.py lines 217-228). -/
def last_three_months (now : Date) : Date × Date :=
  let today : Date := ⟨now.year, now.month, 1⟩
  (subMonths today 3, predDay today)

/-- Translation of Helpers.last_six_months (helpers.py lines 230-241). -/
def last_six_months (now : Date) : Date × Date :=
  let today : Date := ⟨now.year, now.month, 1⟩
  (subMonths today 6, predDay today)

/-- Translation of Helpers.last_year (helpers.py lines 243-254). -/
def last_year (now : Date) : Date × Date :=
  let today : Date := ⟨now.year, now.month, 1⟩
  (subMonths today 12, predDay today)

/-- Translation of Helpers.get_quarter_dates (helpers.py lines 256-281) at the
level of the dates its strings denote: months 3q-2 through 3q of the year,
from day 1 through monthrange of the end month. -/
def get_quarter_dates (q : Nat) (yr : Int) : Date × Date :=
  (⟨yr, 3 * q - 2, 1⟩, ⟨yr, 3 * q, monthrange yr (3 * q)⟩)

/-- Translation of the string building of Helpers.get_quarter_dates: the month
numbers are zero padded to two digits by an explicit length check, the year
and the monthrange day are interpolated unpadded. -/
def get_quarter_dates_str (q : Nat) (yr : Int) : String × String :=
  let qms := 3 * q - 2
  let qme := 3 * q
  (toString yr ++ "-" ++ pad2 qms ++ "-01",
   toString yr ++ "-" ++ pad2 qme ++ "-" ++ toString (monthrange yr qme))

/-- The quarter and year of the current date, as computed at helpers.py lines
295-296 and 318-319: q = (month - 1) // 3 + 1. -/
def currentQuarter (now : Date) : Nat × Int :=
  ((now.month - 1) / 3 + 1, now.year)

/-- The quarter and year branch of Helpers.last_quarter (helpers.py lines
294-302): the previous quarter, moving to Q4 of the previous year when the
current quarter is Q1. -/
def last_quarter_pair (now : Date) : Nat × Int :=
  let q := (now.month - 1) / 3 + 1
  if q = 1 then (4, now.year - 1) else (q - 1, now.year)

/-- Translation of Helpers.last_quarter (helpers.py lines 283-307): with the
flag set it returns the quarter and year pair, otherwise the period strings
of that quarter. -/
def last_quarter (now : Date) (return_q : Bool) : (Nat × Int) ⊕ (String × String) :=
  let p := last_quarter_pair now
  if return_q then .inl p else .inr (get_quarter_dates_str p.1 p.2)

/-- The dates denoted by the period Helpers.last_quarter returns with the flag
unset. -/
def last_quarter_dates (now : Date) : Date × Date :=
  get_quarter_dates (last_quarter_pair now).1 (last_quarter_pair now).2

/-- Translation of Helpers.quarter_to_date (helpers.py lines 309-321) at date
level. -/
def quarter_to_date_dates (now : Date) : Date × Date :=
  get_quarter_dates ((now.month - 1) / 3 + 1) now.year

/-- Translation of Helpers.prev_month_dates (helpers.py lines 323-340): parse
both bounds with strptime, subtract relativedelta(months=1) from each, and
format them back; a bound that does not parse raises ValueError, modelled as
none. -/
def prev_month_dates (params : String × String) : Option (String × String) :=
  match parseDate params.1, parseDate params.2 with
  | some d0, some d1 => some (dateStr (subMonths d0 1), dateStr (subMonths d1 1))
  | _, _ => none

/-- Translation of Helpers.prev_quarter_dates (helpers.py lines 342-359):
same as prev_month_dates with relativedelta(months=3). -/
def prev_quarter_dates (params : String × String) : Option (String × String) :=
  match parseDate params.1, parseDate params.2 with
  | some d0, some d1 => some (dateStr (subMonths d0 3), dateStr (subMonths d1 3))
  | _, _ => none

/-- The two frequencies accepted by the loopers: month start and quarter
start. -/
inductive Freq where
  | MS
  | QS
deriving DecidableEq, Repr

/-- The month_move chosen at helpers.py lines 111-114: 3 for QS, 1 otherwise. -/
def monthMove : Freq → Nat
  | .QS => 3
  | .MS => 1

/-- Month counter of the first date pandas date_range generates: the first
month start at or after the start bound, rounded up to a quarter start
(January, April, July or October) for the QS frequency. -/
def firstRangeIdx (freq : Freq) (s : Date) : Int :=
  let i := monthIndex s + (if s.day = 1 then 0 else 1)
  match freq with
  | .MS => i
  | .QS => i + (3 - i % 3) % 3

/-- Translation of pandas date_range(s, e, freq) for freq MS or QS: all
frequency-aligned month starts between the bounds, in chronological order. -/
def dateRange (freq : Freq) (s e : Date) : List Date :=
  if firstRangeIdx freq s ≤ monthIndex e then
    (List.range
        ((monthIndex e - firstRangeIdx freq s).toNat / monthMove freq + 1)).map
      (fun k : Nat =>
        monthStartOfIndex (firstRangeIdx freq s + (monthMove freq : Int) * (k : Int)))
  else []

/-- The sub-periods generated by the loop of Helpers.loop_plot_df (helpers.py
lines 117-118 and 125-126): each generated month start paired with
month_start + MonthEnd(month_move). -/
def subPeriods (freq : Freq) (s e : Date) : List (Date × Date) :=
  (dateRange freq s e).map (fun ms => (ms, monthEndAdd ms (monthMove freq)))

/-- The loop body of Helpers.loop_plot_df: call the indicator on each
sub-period in order, keyed by the formatted month start; an error raised by
the indicator propagates immediately, aborting the remaining iterations. -/
def loopAux (ind : String × String → Except PyErr (Option Int)) :
    List (Date × Date) → Except PyErr (List (String × Option Int))
  | [] => .ok []
  | (ms, me) :: rest =>
    match ind (dateStr ms, dateStr me) with
    | .error e => .error e
    | .ok v =>
      match loopAux ind rest with
      | .error e => .error e
      | .ok l => .ok ((dateStr ms, v) :: l)

/-- The count_dict of Helpers.loop_plot_df before the DataFrame conversion:
one optional value per sub-period (None models a null or NaN indicator
result). -/
def loop_raw (ind : String × String → Except PyErr (Option Int))
    (freq : Freq) (s e : Date) : Except PyErr (List (String × Option Int)) :=
  loopAux ind (subPeriods freq s e)

/-- Translation of plot_df.fillna(0) at helpers.py line 137: every missing
value becomes 0. -/
def fillna (l : List (String × Option Int)) : List (String × Int) :=
  l.map (fun p => (p.1, p.2.getD 0))

/-- The series Helpers.loop_plot_df builds over an already resolved date
range: the raw per-sub-period results with nulls filled with 0. -/
def loop_core (ind : String × String → Except PyErr (Option Int))
    (freq : Freq) (s e : Date) : Except PyErr (List (String × Int)) :=
  match loop_raw ind freq s e with
  | .error e => .error e
  | .ok l => .ok (fillna l)

/-- The default start bound computed at helpers.py lines 103-105 and team.py
lines 650-652: today minus MonthBegin(2) minus DateOffset(years=1). -/
def defaultStart (today : Date) : Date :=
  subYears (monthBeginSub (monthBeginSub today)) 1

/-- The default end bound computed at helpers.py line 106 and team.py line
653: today minus MonthEnd(1). -/
def defaultEnd (today : Date) : Date :=
  monthEndSub today

/-- Translation of the parameter check at helpers.py lines 102-108 and team.py
lines 649-658: if either bound is falsy (None or the empty string) the
default window is used; otherwise both bounds are parsed, and an unparseable
bound makes the later date_range call raise. -/
def resolveParams (today : Date) (params : Option String × Option String) :
    Option (Date × Date) :=
  match params with
  | (some s0, some s1) =>
    if s0 == "" || s1 == "" then some (defaultStart today, defaultEnd today)
    else
      match parseDate s0, parseDate s1 with
      | some d0, some d1 => some (d0, d1)
      | _, _ => none
  | _ => some (defaultStart today, defaultEnd today)

/-- Translation of Helpers.loop_plot_df (helpers.py lines 83-139) with the
current date and the database-free indicator passed explicitly.  The
additional_func_args branch differs only in the arguments forwarded to the
indicator, which the model folds into the indicator itself. -/
def loop_plot_df (today : Date)
    (ind : String × String → Except PyErr (Option Int))
    (params : Option String × Option String) (freq : Freq) :
    Except PyErr (List (String × Int)) :=
  match resolveParams today params with
  | none => .error .valueError
  | some p => loop_core ind freq p.1 p.2

/-- The sub-periods generated by Team.loop_plot_team_df: without additional
function arguments the loop at team.py line 670 walks date_range with the
requested frequency, but the loop at team.py line 682 (taken when additional
arguments are supplied) walks date_range with the literal frequency MS, while
still spanning each sub-period over month_move months. -/
def teamSubPeriods (hasArgs : Bool) (freq : Freq) (s e : Date) :
    List (Date × Date) :=
  if hasArgs then
    (dateRange .MS s e).map (fun ms => (ms, monthEndAdd ms (monthMove freq)))
  else subPeriods freq s e

/-- Translation of the left merge of the team dimension frame with one
sub-period result at team.py lines 676 and 688-690: one entry per team in the
dimension frame, holding the value the indicator result associates with that
team, or none when the team has no matching row (the indicator results of
team.py hold one row per team, produced by GROUP BY team queries). -/
def teamRowRaw (teams : List String) (res : List (String × Option Int)) :
    List (String × Option Int) :=
  teams.map (fun t => (t, (res.lookup t).getD none))

/-- Translation of master_plot_df.fillna(0) at team.py line 702, restricted to
one row: missing team values become 0. -/
def fillnaRow (row : List (String × Option Int)) : List (String × Int) :=
  row.map (fun p => (p.1, p.2.getD 0))

/-- The loop body of Team.loop_plot_team_df: for each sub-period, call the
indicator (an error propagates immediately), merge its result with the team
list, and key the row by the formatted month start. -/
def teamLoopAux (teams : List String)
    (ind : String × String → Except PyErr (List (String × Option Int))) :
    List (Date × Date) → Except PyErr (List (String × List (String × Int)))
  | [] => .ok []
  | (ms, me) :: rest =>
    match ind (dateStr ms, dateStr me) with
    | .error e => .error e
    | .ok res =>
      match teamLoopAux teams ind rest with
      | .error e => .error e
      | .ok l => .ok ((dateStr ms, fillnaRow (teamRowRaw teams res)) :: l)

/-- Translation of Team.loop_plot_team_df (team.py lines 624-705) with the
current date, the team dimension frame (the result of ppts_on_team) and the
database-free indicator passed explicitly; hasArgs records whether
additional_func_args was supplied, and the lowercasing and suffixing of the
column labels at lines 697-700 is not modelled. -/
def loop_plot_team_df (today : Date) (teams : List String)
    (ind : String × String → Except PyErr (List (String × Option Int)))
    (hasArgs : Bool) (params : Option String × Option String) (freq : Freq) :
    Except PyErr (List (String × List (String × Int))) :=
  match resolveParams today params with
  | none => .error .valueError
  | some p => teamLoopAux teams ind (teamSubPeriods hasArgs freq p.1 p.2)

/-- C1: single_value_query returns 0 when the query yields no row or when the
first column of the first row is NULL, and otherwise returns the first column
of the first row; an empty result is never an error and never null. -/
theorem single_value_query_zero_default :
    single_value_query none = .ok (.intVal 0)
    ∧ (∀ rest : List SQLVal,
        single_value_query (some (SQLVal.null :: rest)) = .ok (.intVal 0))
    ∧ (∀ (v : SQLVal) (rest : List SQLVal), v ≠ SQLVal.null →
        single_value_query (some (v :: rest)) = .ok v)
    ∧ (∀ (fetched : Option (List SQLVal)) (v : SQLVal),
        single_value_query fetched = .ok v → v ≠ SQLVal.null) := by
  refine ⟨rfl, fun rest => rfl, ?_, ?_⟩
  · intro v rest hv
    cases v with
    | null => exact absurd rfl hv
    | intVal n => rfl
    | textVal s => rfl
  · intro fetched v h
    match fetched with
    | none =>
      simp only [single_value_query, Except.ok.injEq] at h
      rw [← h]
      intro hc
      cases hc
    | some [] =>
      simp only [single_value_query, List.head?] at h
      cases h
    | some (SQLVal.null :: rest) =>
      simp only [single_value_query, List.head?, Except.ok.injEq] at h
      rw [← h]
      intro hc
      cases hc
    | some (SQLVal.intVal n :: rest) =>
      simp only [single_value_query, List.head?, Except.ok.injEq] at h
      rw [← h]
      intro hc
      cases hc
    | some (SQLVal.textVal s :: rest) =>
      simp only [single_value_query, List.head?, Except.ok.injEq] at h
      rw [← h]
      intro hc
      cases hc

/-- Witness for C1 at concrete inputs: a non-null first column is returned
as is, and a missing row gives 0. -/
theorem single_value_query_zero_default_witness :
    single_value_query (some [SQLVal.textVal "a", SQLVal.intVal 2])
      = .ok (.textVal "a")
    ∧ single_value_query none = .ok (.intVal 0) :=
  ⟨single_value_query_zero_default.2.2.1 (SQLVal.textVal "a") [SQLVal.intVal 2]
      (by decide),
   single_value_query_zero_default.1⟩

/-- C2 counterexample: when query execution raises, all three executors
propagate the error without ever reaching the conn.close() call, so the
connection is not closed on the error exit path. -/
theorem query_error_leaves_conn_unclosed :
    (single_value_query_traced (.error .queryError)).1 = false
    ∧ (fetchall_query_traced (.error .queryError)).1 = false
    ∧ (dataframe_query_traced (.error .queryError)).1 = false
    ∧ (single_value_query_traced (.error .queryError)).2 = .error .queryError :=
  ⟨rfl, rfl, rfl, rfl⟩

/-- C2 (amended): each executor closes the connection before returning on the
successful path, and an execution error propagates to the caller, but on the
error path the connection is not closed. -/
theorem conn_closed_iff_success :
    (∀ row, (single_value_query_traced (.ok row)).1 = true)
    ∧ (∀ e, single_value_query_traced (.error e) = (false, .error e))
    ∧ (∀ rows, (fetchall_query_traced (.ok rows)).1 = true)
    ∧ (∀ e, fetchall_query_traced (.error e) = (false, .error e))
    ∧ (∀ df, (dataframe_query_traced (.ok df)).1 = true)
    ∧ (∀ e, dataframe_query_traced (.error e) = (false, .error e)) :=
  ⟨fun _ => rfl, fun _ => rfl, fun _ => rfl, fun _ => rfl, fun _ => rfl,
   fun _ => rfl⟩

/-- C4 counterexample: the end bound 2024-04-30 is the last day of April, but
prev_month_dates maps it to 2024-03-30, which is not the last day of March
(March has 31 days). -/
theorem prev_month_dates_end_of_month_cex :
    prev_month_dates ("2024-04-01", "2024-04-30")
      = some ("2024-03-01", "2024-03-30")
    ∧ monthrange 2024 4 = 30
    ∧ monthrange 2024 3 = 31
    ∧ ("2024-03-30" : String) ≠ "2024-03-31" := by
  exact ⟨rfl, rfl, rfl, by decide⟩

/-- C4 (amended): prev_month_dates and prev_quarter_dates subtract 1 and 3
calendar months from both bounds keeping the day of month, clamping the day
to the length of the target month only when the original day exceeds it; an
end-of-month bound therefore stays end-of-month only when the target month is
no longer than the source month. -/
theorem shift_period_back_clamps :
    ∀ (s0 s1 : String) (d0 d1 : Date),
      parseDate s0 = some d0 → parseDate s1 = some d1 →
      prev_month_dates (s0, s1)
          = some (dateStr (subMonths d0 1), dateStr (subMonths d1 1))
      ∧ prev_quarter_dates (s0, s1)
          = some (dateStr (subMonths d0 3), dateStr (subMonths d1 3))
      ∧ (∀ (d : Date) (n : Nat),
          monthIndex (subMonths d n) = monthIndex d - n
          ∧ (subMonths d n).day
              = min d.day (monthrange (subMonths d n).year (subMonths d n).month)) := by
  intro s0 s1 d0 d1 h0 h1
  refine ⟨?_, ?_, fun d n => ⟨monthIndex_subMonths d n, subMonths_day d n⟩⟩
  · unfold prev_month_dates
    rw [h0, h1]
  · unfold prev_quarter_dates
    rw [h0, h1]

/-- Witness for C4 at the period of the spec example: March 2024 shifted back
one month gives February 2024 with the leap-year end Feb 29, and shifted back
one quarter gives December 2023. -/
theorem shift_period_back_clamps_witness :
    prev_month_dates ("2024-03-01", "2024-03-31")
      = some ("2024-02-01", "2024-02-29")
    ∧ prev_quarter_dates ("2024-03-01", "2024-03-31")
      = some ("2023-12-01", "2023-12-31") := by
  have h := shift_period_back_clamps "2024-03-01" "2024-03-31"
    ⟨2024, 3, 1⟩ ⟨2024, 3, 31⟩ rfl rfl
  exact ⟨h.1.trans (by rfl), h.2.1.trans (by rfl)⟩

/-- C6: get_quarter_dates q yr starts on the first day of month 3q-2 and ends
on the last calendar day of month 3q, both valid dates for q in 1..4; in
particular quarter 4 of 2023 is 2023-10-01 through 2023-12-31 and quarter 1
of 2024 is 2024-01-01 through 2024-03-31. -/
theorem get_quarter_dates_bounds :
    (∀ (q : Nat) (yr : Int), 1 ≤ q → q ≤ 4 →
      (get_quarter_dates q yr).1 = ⟨yr, 3 * q - 2, 1⟩
      ∧ (get_quarter_dates q yr).2 = ⟨yr, 3 * q, monthrange yr (3 * q)⟩
      ∧ validDate (get_quarter_dates q yr).1
      ∧ validDate (get_quarter_dates q yr).2
      ∧ (get_quarter_dates q yr).2.day
          = monthrange (get_quarter_dates q yr).2.year
              (get_quarter_dates q yr).2.month)
    ∧ get_quarter_dates_str 4 2023 = ("2023-10-01", "2023-12-31")
    ∧ get_quarter_dates_str 1 2024 = ("2024-01-01", "2024-03-31") := by
  refine ⟨?_, rfl, rfl⟩
  intro q yr h1 h4
  refine ⟨rfl, rfl, ?_, ?_, rfl⟩
  · unfold get_quarter_dates validDate
    dsimp only
    exact ⟨by omega, by omega, by omega,
      le_trans (by omega) (monthrange_ge _ _)⟩
  · unfold get_quarter_dates validDate
    dsimp only
    exact ⟨by omega, by omega,
      le_trans (by omega) (monthrange_ge _ _), le_refl _⟩

/-- Witness for C6 at quarter 3 of 2025: July 1 through September 30. -/
theorem get_quarter_dates_bounds_witness :
    (get_quarter_dates 3 2025).1 = ⟨2025, 7, 1⟩
    ∧ (get_quarter_dates 3 2025).2 = ⟨2025, 9, 30⟩ := by
  have h := get_quarter_dates_bounds.1 3 2025 (by omega) (by omega)
  exact ⟨h.1, h.2.1.trans (by decide)⟩

theorem subMonths_day_le (d : Date) (n : Nat) : (subMonths d n).day ≤ d.day := by
  unfold subMonths
  dsimp only
  exact Nat.min_le_left _ _

theorem lastDay_day_pos (i : Int) : 1 ≤ (lastDayOfMonthIndex i).day :=
  (validDate_lastDayOfMonthIndex i).2.2.1

/-- The start computed by the last-n-months utilities never exceeds their end
(the day before the start of the current month), for any positive n. -/
theorem start_le_predDay (y : Int) (m : Nat) (k : Nat) (hk : 1 ≤ k) :
    dateLe (subMonths ⟨y, m, 1⟩ k) (predDay ⟨y, m, 1⟩) := by
  have h1 := monthIndex_subMonths ⟨y, m, 1⟩ k
  have h2 := monthIndex_lastDayOfMonthIndex (monthIndex ⟨y, m, 1⟩ - 1)
  have h3 := subMonths_day_le ⟨y, m, 1⟩ k
  have h4 := lastDay_day_pos (monthIndex ⟨y, m, 1⟩ - 1)
  have h5 : (⟨y, m, 1⟩ : Date).day = 1 := rfl
  show dateLe _ (lastDayOfMonthIndex _)
  unfold dateLe
  omega

theorem get_quarter_start_le_end (q : Nat) (yr : Int) :
    dateLe (get_quarter_dates q yr).1 (get_quarter_dates q yr).2 := by
  have h := monthrange_ge yr (3 * q)
  unfold get_quarter_dates dateLe monthIndex
  dsimp only
  omega

/-- C5: every period returned by the period utilities (month_to_date,
last_month, last_three_months, last_six_months, last_year, get_quarter_dates
on quarters 1..4, last_quarter, quarter_to_date) satisfies start less than or
equal to end, for every current date. -/
theorem period_utilities_start_le_end :
    ∀ now : Date, validDate now →
      dateLe (month_to_date now).1 (month_to_date now).2
      ∧ dateLe (last_month now).1 (last_month now).2
      ∧ dateLe (last_three_months now).1 (last_three_months now).2
      ∧ dateLe (last_six_months now).1 (last_six_months now).2
      ∧ dateLe (last_year now).1 (last_year now).2
      ∧ (∀ (q : Nat) (yr : Int), 1 ≤ q → q ≤ 4 →
          dateLe (get_quarter_dates q yr).1 (get_quarter_dates q yr).2)
      ∧ dateLe (last_quarter_dates now).1 (last_quarter_dates now).2
      ∧ dateLe (quarter_to_date_dates now).1 (quarter_to_date_dates now).2 := by
  intro now hv
  obtain ⟨hm1, hm2, hd1, hd2⟩ := hv
  refine ⟨?_, start_le_predDay _ _ 1 (by omega),
    start_le_predDay _ _ 3 (by omega), start_le_predDay _ _ 6 (by omega),
    start_le_predDay _ _ 12 (by omega),
    fun q yr h1 h4 => get_quarter_start_le_end q yr,
    get_quarter_start_le_end _ _, get_quarter_start_le_end _ _⟩
  unfold month_to_date dateLe monthIndex
  dsimp only
  omega

/-- Witness for C5 at the current date 2024-03-15 and at quarter 2 of
2021. -/
theorem period_utilities_start_le_end_witness :
    dateLe (last_month ⟨2024, 3, 15⟩).1 (last_month ⟨2024, 3, 15⟩).2
    ∧ dateLe (get_quarter_dates 2 2021).1 (get_quarter_dates 2 2021).2 := by
  have h := period_utilities_start_le_end ⟨2024, 3, 15⟩ (by decide)
  exact ⟨h.2.1, h.2.2.2.2.2.1 2 2021 (by omega) (by omega)⟩

/-- Position of a quarter-year pair on the absolute quarter counter. -/
def quarterIdx (p : Nat × Int) : Int :=
  4 * p.2 + ((p.1 : Int) - 1)

/-- C7: last_quarter computes the quarter immediately preceding the current
quarter, wrapping the year boundary so that in Q1 of year Y it yields Q4 of
year Y-1; with the flag set it returns the quarter-year pair and with the
flag unset it returns that quarter as a period. -/
theorem last_quarter_prev_quarter :
    ∀ now : Date, validDate now →
      1 ≤ (last_quarter_pair now).1
      ∧ (last_quarter_pair now).1 ≤ 4
      ∧ quarterIdx (last_quarter_pair now) = quarterIdx (currentQuarter now) - 1
      ∧ ((currentQuarter now).1 = 1 → last_quarter_pair now = (4, now.year - 1))
      ∧ last_quarter now true = .inl (last_quarter_pair now)
      ∧ last_quarter now false
          = .inr (get_quarter_dates_str (last_quarter_pair now).1
              (last_quarter_pair now).2) := by
  intro now hv
  obtain ⟨hm1, hm2, _, _⟩ := hv
  refine ⟨?_, ?_, ?_, ?_, rfl, rfl⟩
  · unfold last_quarter_pair
    dsimp only
    split_ifs <;> omega
  · unfold last_quarter_pair
    dsimp only
    split_ifs <;> omega
  · unfold last_quarter_pair currentQuarter quarterIdx
    dsimp only
    split_ifs with h <;> dsimp only <;> omega
  · intro hq
    unfold currentQuarter at hq
    dsimp only at hq
    unfold last_quarter_pair
    dsimp only
    rw [if_pos hq]

/-- Witness for C7 at the current date 2024-02-10 (quarter 1 of 2024): the
previous quarter is quarter 4 of 2023. -/
theorem last_quarter_prev_quarter_witness :
    last_quarter_pair ⟨2024, 2, 10⟩ = (4, 2023)
    ∧ last_quarter ⟨2024, 2, 10⟩ false
        = .inr ("2023-10-01", "2023-12-31") := by
  have h := last_quarter_prev_quarter ⟨2024, 2, 10⟩ (by decide)
  have hp := h.2.2.2.1 (by decide)
  exact ⟨hp.trans (by decide), h.2.2.2.2.2.trans (by rw [hp]; rfl)⟩

theorem loopAux_ok_of_forall
    (ind : String × String → Except PyErr (Option Int))
    (l : List (Date × Date))
    (h : ∀ p ∈ l, (ind (dateStr p.1, dateStr p.2)).isOk = true) :
    (loopAux ind l).isOk = true := by
  induction l with
  | nil => rfl
  | cons a rest ih =>
    obtain ⟨ms, me⟩ := a
    have ha := h (ms, me) (List.mem_cons_self _ _)
    have hr := ih (fun p hp => h p (List.mem_cons_of_mem _ hp))
    unfold loopAux
    cases hi : ind (dateStr ms, dateStr me) with
    | error e =>
      rw [hi] at ha
      cases ha
    | ok v =>
      cases hl : loopAux ind rest with
      | error e =>
        rw [hl] at hr
        cases hr
      | ok l2 => rfl

theorem loopAux_ok_forall
    (ind : String × String → Except PyErr (Option Int))
    (l : List (Date × Date)) (res : List (String × Option Int))
    (h : loopAux ind l = .ok res) :
    ∀ p ∈ l, (ind (dateStr p.1, dateStr p.2)).isOk = true := by
  induction l generalizing res with
  | nil => intro p hp; cases hp
  | cons a rest ih =>
    obtain ⟨ms, me⟩ := a
    intro p hp
    unfold loopAux at h
    cases hi : ind (dateStr ms, dateStr me) with
    | error e =>
      rw [hi] at h
      cases h
    | ok v =>
      rw [hi] at h
      cases hl : loopAux ind rest with
      | error e =>
        rw [hl] at h
        cases h
      | ok l2 =>
        rcases List.mem_cons.mp hp with hp1 | hp2
        · rw [hp1, hi]
          rfl
        · exact ih l2 hl p hp2

theorem loop_core_isOk_of_forall
    (ind : String × String → Except PyErr (Option Int))
    (freq : Freq) (s e : Date)
    (h : ∀ p ∈ subPeriods freq s e, (ind (dateStr p.1, dateStr p.2)).isOk = true) :
    (loop_core ind freq s e).isOk = true := by
  have ha := loopAux_ok_of_forall ind (subPeriods freq s e) h
  unfold loop_core loop_raw
  cases hl : loopAux ind (subPeriods freq s e) with
  | error er =>
    rw [hl] at ha
    cases ha
  | ok l => rfl

/-- C8: an error raised by the indicator function on any sub-period
propagates out of loop_plot_df and no series is returned; conversely, when
the indicator succeeds on every sub-period the build succeeds.  Concretely,
an indicator failing on the second of the three monthly sub-periods of
2024-01-01..2024-03-31 aborts the build with that error. -/
theorem loop_plot_df_error_propagation :
    (∀ (ind : String × String → Except PyErr (Option Int)) (freq : Freq)
        (s e : Date),
      (∀ p ∈ subPeriods freq s e, (ind (dateStr p.1, dateStr p.2)).isOk = true) →
      (loop_core ind freq s e).isOk = true)
    ∧ (∀ (ind : String × String → Except PyErr (Option Int)) (freq : Freq)
        (s e : Date) (p : Date × Date),
        p ∈ subPeriods freq s e →
        (ind (dateStr p.1, dateStr p.2)).isOk = false →
        ∃ er, loop_core ind freq s e = .error er)
    ∧ (∀ today : Date,
        loop_plot_df today
          (fun pr => if pr.1 == "2024-02-01" then .error (.userError 1)
                     else .ok (some 7))
          (some "2024-01-01", some "2024-03-31") .MS
        = .error (.userError 1)) := by
  refine ⟨loop_core_isOk_of_forall, ?_, fun today => rfl⟩
  intro ind freq s e p hp hfail
  cases hl : loop_raw ind freq s e with
  | error er =>
    refine ⟨er, ?_⟩
    unfold loop_core
    rw [hl]
  | ok l =>
    have := loopAux_ok_forall ind (subPeriods freq s e) l hl p hp
    rw [hfail] at this
    cases this

/-- Witness for C8: with an everywhere-succeeding indicator the build over
January..March 2024 succeeds. -/
theorem loop_plot_df_error_propagation_witness :
    (loop_core (fun _ => .ok (some 1)) .MS ⟨2024, 1, 1⟩ ⟨2024, 3, 31⟩).isOk
      = true :=
  loop_plot_df_error_propagation.1 (fun _ => .ok (some 1)) .MS
    ⟨2024, 1, 1⟩ ⟨2024, 3, 31⟩ (fun _ _ => rfl)

/-- C9: loop_plot_df replaces every null indicator result by 0 in the
returned series, and loop_plot_team_df gives value 0 to every team with no
matching row in a sub-period result. -/
theorem loop_fillna_and_team_merge_zero :
    (∀ (l : List (String × Option Int)) (label : String),
        (label, (none : Option Int)) ∈ l → (label, (0 : Int)) ∈ fillna l)
    ∧ (∀ (l : List (String × Option Int)) (label : String) (v : Option Int),
        (label, v) ∈ l → (label, v.getD 0) ∈ fillna l)
    ∧ (∀ (ind : String × String → Except PyErr (Option Int)) (freq : Freq)
        (s e : Date) (l : List (String × Option Int)),
        loop_raw ind freq s e = .ok l →
        loop_core ind freq s e = .ok (fillna l))
    ∧ (∀ (teams : List String) (res : List (String × Option Int)) (t : String),
        t ∈ teams → res.lookup t = none →
        (t, (0 : Int)) ∈ fillnaRow (teamRowRaw teams res))
    ∧ (∀ today : Date,
        loop_plot_df today (fun _ => .ok none)
          (some "2024-01-01", some "2024-01-31") .MS
        = .ok [("2024-01-01", 0)]) := by
  have h2 : ∀ (l : List (String × Option Int)) (label : String) (v : Option Int),
      (label, v) ∈ l → (label, v.getD 0) ∈ fillna l := by
    intro l label v hv
    exact List.mem_map_of_mem (fun p => (p.1, p.2.getD 0)) hv
  refine ⟨fun l label hv => h2 l label none hv, h2, ?_, ?_, fun today => rfl⟩
  · intro ind freq s e l hl
    unfold loop_core
    rw [hl]
  · intro teams res t ht hlk
    have h1 : (t, (res.lookup t).getD none) ∈ teamRowRaw teams res :=
      List.mem_map_of_mem (fun u => (u, (res.lookup u).getD none)) ht
    rw [hlk] at h1
    have h3 := List.mem_map_of_mem (fun p => (p.1, p.2.getD 0)) h1
    exact h3

/-- Witness for C9: a null January result becomes 0, and a team absent from
an empty indicator result gets 0. -/
theorem loop_fillna_and_team_merge_zero_witness :
    ("2024-01-01", (0 : Int)) ∈ fillna [("2024-01-01", (none : Option Int))]
    ∧ ("north", (0 : Int)) ∈ fillnaRow (teamRowRaw ["north"] []) := by
  constructor
  · exact loop_fillna_and_team_merge_zero.1 _ "2024-01-01" (by simp)
  · exact loop_fillna_and_team_merge_zero.2.2.2.1 ["north"] [] "north"
      (by simp) rfl

theorem monthBeginSub_day (d : Date) : (monthBeginSub d).day = 1 := by
  unfold monthBeginSub
  split_ifs <;> rfl

theorem monthIndex_monthBeginSub (d : Date) :
    monthIndex (monthBeginSub d)
      = monthIndex d - (if d.day = 1 then 1 else 0) := by
  unfold monthBeginSub
  split_ifs with h <;> rw [monthIndex_monthStartOfIndex] <;> omega

theorem monthIndex_subYears (d : Date) (n : Nat) :
    monthIndex (subYears d n) = monthIndex d - 12 * n := by
  unfold subYears monthIndex
  dsimp only
  omega

theorem subYears_day_of_one (d : Date) (n : Nat) (h : d.day = 1) :
    (subYears d n).day = 1 := by
  unfold subYears
  dsimp only
  rw [h]
  exact Nat.min_eq_left (le_trans (by omega) (monthrange_ge _ _))

theorem teamLoopAux_ok_of_forall (teams : List String)
    (ind : String × String → Except PyErr (List (String × Option Int)))
    (l : List (Date × Date))
    (h : ∀ p ∈ l, (ind (dateStr p.1, dateStr p.2)).isOk = true) :
    (teamLoopAux teams ind l).isOk = true := by
  induction l with
  | nil => rfl
  | cons a rest ih =>
    obtain ⟨ms, me⟩ := a
    have ha := h (ms, me) (List.mem_cons_self _ _)
    have hr := ih (fun p hp => h p (List.mem_cons_of_mem _ hp))
    unfold teamLoopAux
    cases hi : ind (dateStr ms, dateStr me) with
    | error e =>
      rw [hi] at ha
      cases ha
    | ok res =>
      cases hl : teamLoopAux teams ind rest with
      | error e =>
        rw [hl] at hr
        cases hr
      | ok l2 => rfl

/-- C10: a falsy bound (None or empty) in the params of loop_plot_df or
loop_plot_team_df does not make the call fail: both substitute the default
window running from the month start 13 months (14 when today is a month
start) before the current month through the last day of the month before the
current month, and build the series over that window. -/
theorem falsy_params_default_window :
    ∀ today : Date, validDate today →
      (∀ p1 : Option String,
        resolveParams today (none, p1)
          = some (defaultStart today, defaultEnd today))
      ∧ (∀ p0 : Option String,
          resolveParams today (p0, none)
            = some (defaultStart today, defaultEnd today))
      ∧ (∀ s1 : Option String,
          resolveParams today (some "", s1)
            = some (defaultStart today, defaultEnd today))
      ∧ (∀ s0 : String,
          resolveParams today (some s0, some "")
            = some (defaultStart today, defaultEnd today))
      ∧ monthIndex (defaultEnd today) = monthIndex today - 1
      ∧ (defaultEnd today).day
          = monthrange (defaultEnd today).year (defaultEnd today).month
      ∧ (defaultStart today).day = 1
      ∧ monthIndex (defaultStart today)
          = monthIndex today - (if today.day = 1 then 14 else 13)
      ∧ (∀ (ind : String × String → Except PyErr (Option Int)) (freq : Freq),
          loop_plot_df today ind (none, none) freq
            = loop_core ind freq (defaultStart today) (defaultEnd today))
      ∧ (∀ (ind : String × String → Except PyErr (Option Int)) (freq : Freq),
          (∀ pr, (ind pr).isOk = true) →
          (loop_plot_df today ind (none, none) freq).isOk = true)
      ∧ (∀ (teams : List String)
          (tind : String × String → Except PyErr (List (String × Option Int)))
          (hasArgs : Bool) (freq : Freq),
          loop_plot_team_df today teams tind hasArgs (none, none) freq
            = teamLoopAux teams tind
                (teamSubPeriods hasArgs freq (defaultStart today)
                  (defaultEnd today)))
      ∧ (∀ (teams : List String)
          (tind : String × String → Except PyErr (List (String × Option Int)))
          (hasArgs : Bool) (freq : Freq),
          (∀ pr, (tind pr).isOk = true) →
          (loop_plot_team_df today teams tind hasArgs (none, none) freq).isOk
            = true) := by
  intro today hv
  refine ⟨fun p1 => rfl, ?_, ?_, ?_, ?_, rfl, ?_, ?_,
    fun ind freq => rfl, ?_, fun teams tind hasArgs freq => rfl, ?_⟩
  · intro p0
    cases p0 <;> rfl
  · intro s1
    cases s1 <;> rfl
  · intro s0
    simp [resolveParams]
  · unfold defaultEnd monthEndSub
    rw [monthIndex_lastDayOfMonthIndex]
  · exact subYears_day_of_one _ 1 (monthBeginSub_day _)
  · unfold defaultStart
    rw [monthIndex_subYears]
    rw [monthIndex_monthBeginSub]
    rw [monthBeginSub_day]
    rw [monthIndex_monthBeginSub]
    split_ifs <;> omega
  · intro ind freq hok
    exact loop_core_isOk_of_forall ind freq _ _ (fun p hp => hok _)
  · intro teams tind hasArgs freq hok
    exact teamLoopAux_ok_of_forall teams tind _ (fun p hp => hok _)

/-- Witness for C10 at the current date 2024-05-15: the default window is
2023-04-01 through 2024-04-30 and a constant indicator builds a series over
it without failing. -/
theorem falsy_params_default_window_witness :
    resolveParams ⟨2024, 5, 15⟩ ((none : Option String), (none : Option String))
      = some (⟨2023, 4, 1⟩, ⟨2024, 4, 30⟩)
    ∧ (loop_plot_df ⟨2024, 5, 15⟩ (fun _ => .ok (some 2))
        ((none : Option String), (none : Option String)) .MS).isOk = true := by
  have h := falsy_params_default_window ⟨2024, 5, 15⟩ (by decide)
  refine ⟨(h.1 none).trans (by decide), ?_⟩
  exact h.2.2.2.2.2.2.2.2.2.1 (fun _ => .ok (some 2)) .MS (fun pr => rfl)
theorem firstRangeIdx_ge (freq : Freq) (s : Date) :
    monthIndex s + (if s.day = 1 then 0 else 1) ≤ firstRangeIdx freq s := by
  unfold firstRangeIdx
  cases freq <;> dsimp only <;> omega

theorem monthEndAdd_of_day_one (d : Date) (hd : d.day = 1) (n : Nat) :
    monthEndAdd d n = lastDayOfMonthIndex (monthIndex d + n - 1) := by
  unfold monthEndAdd
  rw [if_neg]
  have := monthrange_ge d.year d.month
  omega

theorem dateRange_pos (freq : Freq) (s e : Date)
    (hc : firstRangeIdx freq s ≤ monthIndex e) :
    dateRange freq s e
      = (List.range
          ((monthIndex e - firstRangeIdx freq s).toNat / monthMove freq + 1)).map
          (fun k : Nat =>
            monthStartOfIndex
              (firstRangeIdx freq s + (monthMove freq : Int) * (k : Int))) := by
  unfold dateRange
  rw [if_pos hc]

theorem dateRange_neg (freq : Freq) (s e : Date)
    (hc : ¬ firstRangeIdx freq s ≤ monthIndex e) :
    dateRange freq s e = [] := by
  unfold dateRange
  rw [if_neg hc]

theorem mem_dateRange (freq : Freq) (s e : Date) (d : Date)
    (hd : d ∈ dateRange freq s e) :
    ∃ k : Nat,
      k ≤ (monthIndex e - firstRangeIdx freq s).toNat / monthMove freq
      ∧ d = monthStartOfIndex
          (firstRangeIdx freq s + (monthMove freq : Int) * (k : Int))
      ∧ firstRangeIdx freq s ≤ monthIndex e := by
  by_cases hc : firstRangeIdx freq s ≤ monthIndex e
  · rw [dateRange_pos freq s e hc, List.mem_map] at hd
    obtain ⟨k, hk, hkd⟩ := hd
    rw [List.mem_range] at hk
    exact ⟨k, by omega, hkd.symm, hc⟩
  · rw [dateRange_neg freq s e hc] at hd
    cases hd

theorem dateRange_getElem (freq : Freq) (s e : Date) (i : Nat)
    (h : i < (dateRange freq s e).length) :
    (dateRange freq s e)[i]
      = monthStartOfIndex
          (firstRangeIdx freq s + (monthMove freq : Int) * (i : Int)) := by
  by_cases hc : firstRangeIdx freq s ≤ monthIndex e
  · have hd := dateRange_pos freq s e hc
    rw [List.getElem_of_eq hd h]
    simp
  · rw [dateRange_neg freq s e hc] at h
    cases h

theorem subPeriods_getElem (freq : Freq) (s e : Date) (i : Nat)
    (h : i < (subPeriods freq s e).length) :
    (subPeriods freq s e)[i]
      = (monthStartOfIndex
           (firstRangeIdx freq s + (monthMove freq : Int) * (i : Int)),
         monthEndAdd
           (monthStartOfIndex
             (firstRangeIdx freq s + (monthMove freq : Int) * (i : Int)))
           (monthMove freq)) := by
  have hlen : i < (dateRange freq s e).length := by
    simpa [subPeriods] using h
  have h1 := dateRange_getElem freq s e i hlen
  simp only [subPeriods, List.getElem_map, h1]

theorem teamSubPeriods_true_getElem (freq : Freq) (s e : Date) (i : Nat)
    (h : i < (teamSubPeriods true freq s e).length) :
    (teamSubPeriods true freq s e)[i]
      = (monthStartOfIndex (firstRangeIdx .MS s + (i : Int)),
         monthEndAdd (monthStartOfIndex (firstRangeIdx .MS s + (i : Int)))
           (monthMove freq)) := by
  have hlen : i < (dateRange .MS s e).length := by
    simpa [teamSubPeriods] using h
  have h1 := dateRange_getElem .MS s e i hlen
  have h2 : ((monthMove Freq.MS : Int)) * (i : Int) = (i : Int) := by
    simp [monthMove]
  rw [h2] at h1
  simp only [teamSubPeriods, if_true, List.getElem_map, h1]
theorem monthMove_pos (freq : Freq) : 1 ≤ monthMove freq := by
  cases freq <;> simp [monthMove]

theorem subPeriods_bounds (freq : Freq) (s e : Date) (p : Date × Date)
    (hvs : validDate s) (hve : validDate e) (hp : p ∈ subPeriods freq s e) :
    dateLe s p.1 ∧ dateLe p.1 e := by
  unfold subPeriods at hp
  rw [List.mem_map] at hp
  obtain ⟨d, hd, hpd⟩ := hp
  obtain ⟨k, hk, hdk, hc⟩ := mem_dateRange freq s e d hd
  subst hdk
  have hmi := monthIndex_monthStartOfIndex
      (firstRangeIdx freq s + (monthMove freq : Int) * (k : Int))
  have hday := monthStartOfIndex_day
      (firstRangeIdx freq s + (monthMove freq : Int) * (k : Int))
  have hge := firstRangeIdx_ge freq s
  have hP0 : (0 : Int) ≤ (monthMove freq : Int) * (k : Int) :=
    mul_nonneg (by exact_mod_cast Nat.zero_le _) (by exact_mod_cast Nat.zero_le _)
  have hkN : monthMove freq * k ≤ (monthIndex e - firstRangeIdx freq s).toNat := by
    calc monthMove freq * k
        ≤ monthMove freq
            * ((monthIndex e - firstRangeIdx freq s).toNat / monthMove freq) :=
          Nat.mul_le_mul_left _ hk
      _ = ((monthIndex e - firstRangeIdx freq s).toNat / monthMove freq)
            * monthMove freq := Nat.mul_comm _ _
      _ ≤ (monthIndex e - firstRangeIdx freq s).toNat := Nat.div_mul_le_self _ _
  have hPle := (Nat.cast_le (α := Int)).mpr hkN
  have hcast : ((monthMove freq * k : Nat) : Int)
      = (monthMove freq : Int) * (k : Int) := by
    push_cast
    ring
  have htn : (((monthIndex e - firstRangeIdx freq s).toNat : Int))
      = monthIndex e - firstRangeIdx freq s := Int.toNat_of_nonneg (by omega)
  rw [hcast, htn] at hPle
  obtain ⟨hs1, hs2, hs3, hs4⟩ := hvs
  obtain ⟨he1, he2, he3, he4⟩ := hve
  rw [← hpd]
  dsimp only
  constructor
  · unfold dateLe
    by_cases hsd : s.day = 1
    · rw [if_pos hsd] at hge
      generalize hPP : (monthMove freq : Int) * (k : Int) = P at hmi hday hP0 hPle ⊢
      omega
    · rw [if_neg hsd] at hge
      generalize hPP : (monthMove freq : Int) * (k : Int) = P at hmi hday hP0 hPle ⊢
      omega
  · unfold dateLe
    generalize hPP : (monthMove freq : Int) * (k : Int) = P at hmi hday hP0 hPle ⊢
    omega

/-- C3 counterexample: at quarterly granularity with additional function
arguments supplied, loop_plot_team_df over 2024-01-01..2024-06-30 produces
six monthly labels stepping 1 month apart, not the two labels 2024-01-01 and
2024-04-01 that walking in steps of 3 months would give. -/
theorem loop_plot_team_df_quarterly_args_cex :
    Except.map (fun l => l.map Prod.fst)
        (loop_plot_team_df ⟨2025, 5, 15⟩ ["north"]
          (fun _ => .ok [("north", some 5)]) true
          (some "2024-01-01", some "2024-06-30") .QS)
      = .ok ["2024-01-01", "2024-02-01", "2024-03-01", "2024-04-01",
             "2024-05-01", "2024-06-01"]
    ∧ (["2024-01-01", "2024-02-01", "2024-03-01", "2024-04-01",
        "2024-05-01", "2024-06-01"]
        ≠ ["2024-01-01", "2024-04-01"]) :=
  ⟨rfl, by decide⟩

/-- C3 (amended): the loopers generate sub-periods by walking month-start
aligned boundaries from the period start to its end in steps of 1 month at
monthly granularity and 3 months at quarterly granularity, each sub-period
ending on the last day of its final month (which may extend past the overall
end) — except that loop_plot_team_df invoked with additional function
arguments always walks in steps of 1 month regardless of granularity, while
still spanning each sub-period over the granularity width.  A 3-month period
at monthly granularity with a constant indicator yields exactly 3 entries,
each equal to the constant, labeled by the month starts in chronological
order. -/
theorem loopers_subperiod_walk :
    (∀ (freq : Freq) (s e : Date) (i : Nat)
        (h : i < (subPeriods freq s e).length),
        ((subPeriods freq s e)[i]).1.day = 1
        ∧ monthIndex ((subPeriods freq s e)[i]).1
            = firstRangeIdx freq s + (monthMove freq : Int) * (i : Int)
        ∧ ((subPeriods freq s e)[i]).2
            = lastDayOfMonthIndex
                (monthIndex ((subPeriods freq s e)[i]).1
                  + (monthMove freq : Int) - 1))
    ∧ (∀ (freq : Freq) (s e : Date) (p : Date × Date),
        validDate s → validDate e → p ∈ subPeriods freq s e →
        dateLe s p.1 ∧ dateLe p.1 e)
    ∧ (∀ (freq : Freq) (s e : Date) (i : Nat)
        (h : i < (teamSubPeriods true freq s e).length),
        monthIndex ((teamSubPeriods true freq s e)[i]).1
            = firstRangeIdx .MS s + (i : Int)
        ∧ ((teamSubPeriods true freq s e)[i]).2
            = lastDayOfMonthIndex
                (monthIndex ((teamSubPeriods true freq s e)[i]).1
                  + (monthMove freq : Int) - 1))
    ∧ (∀ (freq : Freq) (s e : Date),
        teamSubPeriods false freq s e = subPeriods freq s e)
    ∧ (∀ (c : Int) (today : Date),
        loop_plot_df today (fun _ => .ok (some c))
          (some "2024-01-01", some "2024-03-31") .MS
        = .ok [("2024-01-01", c), ("2024-02-01", c), ("2024-03-01", c)]) := by
  refine ⟨?_, fun freq s e p hvs hve hp => subPeriods_bounds freq s e p hvs hve hp,
    ?_, fun freq s e => rfl, fun c today => rfl⟩
  · intro freq s e i h
    have hg := subPeriods_getElem freq s e i h
    rw [hg]
    dsimp only
    refine ⟨monthStartOfIndex_day _, monthIndex_monthStartOfIndex _, ?_⟩
    rw [monthEndAdd_of_day_one _ (monthStartOfIndex_day _) _,
      monthIndex_monthStartOfIndex]
  · intro freq s e i h
    have hg := teamSubPeriods_true_getElem freq s e i h
    rw [hg]
    dsimp only
    refine ⟨monthIndex_monthStartOfIndex _, ?_⟩
    rw [monthEndAdd_of_day_one _ (monthStartOfIndex_day _) _,
      monthIndex_monthStartOfIndex]

/-- Witness for C3 at the quarterly walk over 2024-01-01..2024-06-30: the
second generated sub-period starts on 2024-04-01, which lies between the
period bounds. -/
theorem loopers_subperiod_walk_witness :
    dateLe ⟨2024, 1, 1⟩ (⟨2024, 4, 1⟩ : Date)
    ∧ dateLe (⟨2024, 4, 1⟩ : Date) ⟨2024, 6, 30⟩ :=
  loopers_subperiod_walk.2.1 .QS ⟨2024, 1, 1⟩ ⟨2024, 6, 30⟩
    (⟨2024, 4, 1⟩, ⟨2024, 6, 30⟩) (by decide) (by decide) (by decide)
end PaceUtils
